import Mathlib

/-!
Shallow embedding of the peer-to-peer request/response core of go-quai:
the stream protocol handler (`p2p/protocol/interface.go`), the single-peer
requester and CID derivation (`p2p/node/requests`-style file, `src/unnamed/part_001`),
and the node-side dispatcher/facade (`src/unnamed/part_000`).

Go dynamic `interface\x7b\x7d` values are embedded as the inductive `GoVal`, whose
constructors record both the underlying entity and whether the Go value is a
pointer or a value (Go type assertions distinguish `*big.Int` from `big.Int`,
and `*types.Block` from `types.Block`).  A failed single-return type assertion
in Go is a run-time panic; the embedding surfaces those paths explicitly.
-/

/-- 32-byte content digest, identity by value (`common.Hash`). -/
structure Hash where
  val : Nat
deriving DecidableEq, Repr

/-- An opaque block payload carrying its self-describing hash (`types.Block`). -/
structure Block where
  hash : Hash
deriving DecidableEq, Repr

/-- An opaque header payload carrying its self-describing hash (`types.Header`). -/
structure Header where
  hash : Hash
deriving DecidableEq, Repr

/-- An opaque transaction payload carrying its hash (`types.Transaction`). -/
structure Transaction where
  hash : Hash
deriving DecidableEq, Repr

/-- Shard/slice identifier; `name` is the byte sequence of `Location.Name()`. -/
structure Location where
  name : List Nat
deriving DecidableEq, Repr

/-- A Go dynamic value as it flows through the request/response paths.
Pointer and value forms are distinguished because Go type switches and
type assertions distinguish them. -/
inductive GoVal where
  | hashVal (h : Hash)
  | hashPtr (h : Hash)
  | bigIntPtr (n : Nat)
  | bigIntVal (n : Nat)
  | blockPtr (b : Block)
  | blockVal (b : Block)
  | headerPtr (hd : Header)
  | txPtr (t : Transaction)
deriving DecidableEq, Repr

/-- Go type assertion `v.(common.Hash)`: succeeds only on a `common.Hash` value. -/
def assertHashVal : GoVal → Option Hash
  | .hashVal h => some h
  | _ => none

/-- Go type assertion `v.(big.Int)`: succeeds only on a bare `big.Int` value
(in particular it fails, i.e. panics in single-return form, on `*big.Int`). -/
def assertBigIntVal : GoVal → Option Nat
  | .bigIntVal n => some n
  | _ => none

/-- Whether two dynamic values have the same Go dynamic type (same constructor). -/
def sameKind : GoVal → GoVal → Bool
  | .hashVal _, .hashVal _ => true
  | .hashPtr _, .hashPtr _ => true
  | .bigIntPtr _, .bigIntPtr _ => true
  | .bigIntVal _, .bigIntVal _ => true
  | .blockPtr _, .blockPtr _ => true
  | .blockVal _, .blockVal _ => true
  | .headerPtr _, .headerPtr _ => true
  | .txPtr _, .txPtr _ => true
  | _, _ => false

/-- The by-hash request tags of `requestFromPeer`: `*types.Block`,
`*types.Header`, `*types.Transaction`. -/
def isByHashTag : GoVal → Bool
  | .blockPtr _ => true
  | .headerPtr _ => true
  | .txPtr _ => true
  | _ => false

/-- Whether a dynamic value is a `*types.Block` (the assertion taken by the
cache fast path of `RequestByHash`). -/
def isBlockPtr : GoVal → Bool
  | .blockPtr _ => true
  | _ => false

/-- The self-describing `Hash()` of a payload value, when its kind has one. -/
def payloadHash : GoVal → Option Hash
  | .blockPtr b => some b.hash
  | .blockVal b => some b.hash
  | .headerPtr hd => some hd.hash
  | .txPtr t => some t.hash
  | _ => none

/-! ## Response cache

Modelled from the spec: `cacheGet`/`cacheAdd` of `P2PNode` are not under
`src/`; section 4.2 specifies a mapping from hash to tagged payload where
`Get(hash, typeTag)` returns the payload exactly when an entry exists and its
tag (the payload's dynamic kind) equals the requested tag, and
`Put(hash, payload)` inserts or overwrites. -/

/-- Cache storage: newest entry for a hash shadows older ones. -/
abbrev Cache := List (Hash × GoVal)

/-- Lookup of the newest entry stored under a hash. -/
def cacheFind : Cache → Hash → Option GoVal
  | [], _ => none
  | (k, v) :: rest, h => if k = h then some v else cacheFind rest h

/-- Modelled from the spec: `cacheGet(hash, datatype)` hits only when the
stored payload's dynamic kind equals the requested datatype's kind. -/
def cacheGet (c : Cache) (h : Hash) (datatype : GoVal) : Option GoVal :=
  match cacheFind c h with
  | some v => if sameKind v datatype then some v else none
  | none => none

/-- Modelled from the spec: `cacheAdd(hash, payload)` inserts or overwrites. -/
def cacheAdd (c : Cache) (h : Hash) (v : GoVal) : Cache :=
  (h, v) :: c

/-! ## Request ID registry

Modelled from the spec: the `RequestIDManager` (`GetRequestIDManager`,
`GenerateRequestID`, `AddRequestID`, `RemoveRequestID`) is not under `src/`;
section 4.1 specifies a monotonic counter plus a pending set where `Add`
inserts, and `Remove` removes and is a no-op on an absent id. -/
structure Registry where
  counter : Nat
  pending : List Nat
deriving DecidableEq, Repr

/-- Registry events observed during one `requestFromPeer` attempt. -/
inductive REvent where
  | generate (id : Nat)
  | add (id : Nat)
  | remove (id : Nat)
deriving DecidableEq, Repr

/-! ## Single-peer requester (`requestFromPeer`, src/unnamed/part_001) -/

/-- Environment of one `requestFromPeer` attempt: which of the fallible
boundary operations succeed, and what the decoded response carries. -/
structure ClientEnv where
  streamOk : Bool
  encodeOk : Bool
  writeOk : Bool
  readOk : Bool
  decodeOk : Bool
  recvID : Nat
  recvPayload : GoVal
deriving DecidableEq, Repr

/-- Result of the requester: a returned payload, an error return, or a
process panic. -/
inductive ReqOutcome where
  | ok (v : GoVal)
  | err
  | panicked
deriving DecidableEq, Repr

/-- Everything observable about one `requestFromPeer` attempt. -/
structure RFPResult where
  outcome : ReqOutcome
  reg : Registry
  events : List REvent
  banned : Bool
deriving DecidableEq, Repr

/-- The validation switch at the end of `requestFromPeer` (lines 67-91 of
src/unnamed/part_001): dispatch on the dynamic type of `datatype`; each by-hash
case returns the payload only when the received dynamic type matches and its
`Hash()` equals `data.(common.Hash)` (the assertion panics when `data` is not a
`common.Hash` and is only evaluated when the received type matched); the
`*common.Hash` case accepts any received hash; every case that does not return
falls through to `BanPeer` and an error return. -/
def validateResponse (env : ClientEnv) (data datatype : GoVal) : ReqOutcome × Bool :=
  match datatype with
  | .blockPtr _ =>
    match env.recvPayload with
    | .blockPtr b =>
      match assertHashVal data with
      | some h => if b.hash = h then (.ok (.blockPtr b), false) else (.err, true)
      | none => (.panicked, false)
    | _ => (.err, true)
  | .headerPtr _ =>
    match env.recvPayload with
    | .headerPtr hd =>
      match assertHashVal data with
      | some h => if hd.hash = h then (.ok (.headerPtr hd), false) else (.err, true)
      | none => (.panicked, false)
    | _ => (.err, true)
  | .txPtr _ =>
    match env.recvPayload with
    | .txPtr t =>
      match assertHashVal data with
      | some h => if t.hash = h then (.ok (.txPtr t), false) else (.err, true)
      | none => (.panicked, false)
    | _ => (.err, true)
  | .hashPtr _ =>
    match env.recvPayload with
    | .hashPtr g => (.ok (.hashPtr g), false)
    | _ => (.err, true)
  | _ => (.err, true)

/-- `requestFromPeer` (src/unnamed/part_001, lines 18-92), sequentialized over
an explicit environment.  The order of effects follows the source: open stream,
`GenerateRequestID`, encode, write, `AddRequestID`, read, decode, compare the
received request ID (mismatch panics at the source's `panic` stub),
`RemoveRequestID`, then the validation switch. -/
def requestFromPeer (env : ClientEnv) (reg : Registry) (data datatype : GoVal) : RFPResult :=
  if env.streamOk then
    let id := reg.counter
    let reg1 : Registry := { reg with counter := reg.counter + 1 }
    if env.encodeOk then
      if env.writeOk then
        let reg2 : Registry := { reg1 with pending := id :: reg1.pending }
        let evs := [REvent.generate id, REvent.add id]
        if env.readOk then
          if env.decodeOk then
            if env.recvID = id then
              let reg3 : Registry := { reg2 with pending := reg2.pending.erase id }
              let v := validateResponse env data datatype
              ⟨v.1, reg3, evs ++ [REvent.remove id], v.2⟩
            else ⟨.panicked, reg2, evs, false⟩
          else ⟨.err, reg2, evs, false⟩
        else ⟨.err, reg2, evs, false⟩
      else ⟨.err, reg1, [REvent.generate id], false⟩
    else ⟨.err, reg1, [REvent.generate id], false⟩
  else ⟨.err, reg, [], false⟩

/-! ## Inbound stream protocol handler (src/p2p/protocol/interface.go) -/

/-- Environment of one server-side handler invocation: whether the response
encode and the stream write succeed. -/
structure ServerEnv where
  encodeOk : Bool
  writeOk : Bool
deriving DecidableEq, Repr

/-- The `QuaiP2PNode` interface as used by the per-type handlers:
`GetBlock`/`GetHeader` return `none` for "not found" (a nil pointer in Go). -/
structure NodeIface where
  getBlock : Hash → Location → Option Block
  getHeader : Hash → Location → Option Header
  getBlockHashByNumber : Nat → Location → Option Hash

/-- Payload of an encoded response frame.  `hashResp none` is the encoding of
a nil `*common.Hash`. -/
inductive RespPayload where
  | blockResp (b : Block)
  | headerResp (hd : Header)
  | hashResp (h : Option Hash)
deriving DecidableEq, Repr

/-- A response frame as written back on the stream. -/
structure ResponseFrame where
  id : Nat
  payload : RespPayload
deriving DecidableEq, Repr

/-- Result of handling one decoded inbound request. -/
inductive HandlerResult where
  | wrote (f : ResponseFrame)
  | errored
  | panicked
  | skipped
deriving DecidableEq, Repr

/-- `handleBlockRequest` (interface.go lines 122-141): looks the block up via
the facade; when the block is absent it only logs and falls through to
`block.Hash()` on the nil block, which dereferences nil and panics; otherwise
it encodes `(id, block)` and writes it on the stream. -/
def handleBlockRequest (env : ServerEnv) (node : NodeIface) (id : Nat)
    (loc : Location) (hash : Hash) : HandlerResult :=
  match node.getBlock hash loc with
  | none => .panicked
  | some block =>
    if env.encodeOk then
      if env.writeOk then .wrote ⟨id, .blockResp block⟩ else .errored
    else .errored

/-- `handleHeaderRequest` (interface.go lines 144-163): when the header is
absent it logs and returns nil (no response is written); otherwise it encodes
`(id, header)` and writes it. -/
def handleHeaderRequest (env : ServerEnv) (node : NodeIface) (id : Nat)
    (loc : Location) (hash : Hash) : HandlerResult :=
  match node.getHeader hash loc with
  | none => .skipped
  | some hd =>
    if env.encodeOk then
      if env.writeOk then .wrote ⟨id, .headerResp hd⟩ else .errored
    else .errored

/-- `handleTransactionRequest` (interface.go lines 165-167): the body is a
bare panic stub. -/
def handleTransactionRequest (_env : ServerEnv) (_node : NodeIface) (_id : Nat)
    (_loc : Location) (_hash : Hash) : HandlerResult :=
  .panicked

/-- `handleBlockNumberRequest` (interface.go lines 170-190): queries
`GetBlockHashByNumber` and encodes `(id, blockHash)` — on a nil result it only
logs and still encodes the nil hash. -/
def handleBlockNumberRequest (env : ServerEnv) (node : NodeIface) (id : Nat)
    (loc : Location) (number : Nat) : HandlerResult :=
  let blockHash := node.getBlockHashByNumber number loc
  if env.encodeOk then
    if env.writeOk then .wrote ⟨id, .hashResp blockHash⟩ else .errored
  else .errored

/-- The dispatch switch of `QuaiProtocolHandler` (interface.go lines 82-116)
for one decoded request `(id, decodedType, loc, query)`.  Each by-hash branch
passes `query.(common.Hash)` and the `common.Hash` branch (the BlockHash tag)
passes `query.(big.Int)`; in Go these single-return type assertions panic when
the dynamic type differs (the read loop's own logging switch, lines 73-80,
expects the number selector to be a `*big.Int`).  An unknown tag is logged
and the loop continues. -/
def dispatchRequest (env : ServerEnv) (node : NodeIface) (id : Nat)
    (loc : Location) (decodedType query : GoVal) : HandlerResult :=
  match decodedType with
  | .blockPtr _ =>
    match assertHashVal query with
    | some h => handleBlockRequest env node id loc h
    | none => .panicked
  | .headerPtr _ =>
    match assertHashVal query with
    | some h => handleHeaderRequest env node id loc h
    | none => .panicked
  | .txPtr _ =>
    match assertHashVal query with
    | some h => handleTransactionRequest env node id loc h
    | none => .panicked
  | .hashVal _ =>
    match assertBigIntVal query with
    | some n => handleBlockNumberRequest env node id loc n
    | none => .panicked
  | _ => .skipped

/-! ## Node facade and broadcast ingestion (src/unnamed/part_000) -/

/-- A computation that either produces a value or panics. -/
inductive Outcome (α : Type) where
  | value (a : α)
  | panicked
deriving DecidableEq, Repr

/-- The consensus backend calls the facade makes (external collaborator). -/
structure ConsensusBackend where
  lookupBlock : Hash → Location → Option Block
  lookupHeader : Hash → Location → Option Header
  lookupBlockHashByNumber : Nat → Location → Option Hash

/-- The `P2PNode` state the modelled methods touch: the response cache and the
consensus backend (`none` until `SetConsensusBackend` is called). -/
structure P2PNodeState where
  cache : Cache
  consensus : Option ConsensusBackend

/-- `P2PNode.GetHeader` (src/unnamed/part_000, lines 300-302): the body is a
bare panic stub. -/
def GetHeader (_p : P2PNodeState) (_hash : Hash) (_loc : Location) :
    Outcome (Option Header) :=
  .panicked

/-- `P2PNode.handleBroadcast` (src/unnamed/part_000, lines 304-319): a
`types.Block` value is inserted into the cache under its hash (as `&v`, a
`*types.Block`); any other dynamic type is logged and dropped by an early
return.  Afterwards the data is forwarded to `consensus.OnNewBroadcast` only
when the backend pointer is non-nil.  The returned Bool records whether
`OnNewBroadcast` was invoked. -/
def handleBroadcast (p : P2PNodeState) (data : GoVal) : P2PNodeState × Bool :=
  match data with
  | .blockVal b =>
    let p2 : P2PNodeState := { p with cache := cacheAdd p.cache b.hash (.blockPtr b) }
    (p2, p.consensus.isSome)
  | _ => (p, false)

/-! ## Outbound fan-out dispatcher (src/unnamed/part_000, RequestByNumber /
RequestByHash)

The per-peer goroutines are sequentialized: `response peerID` abstracts the
outcome of `p.requestFromPeer` against that peer (`requestFromPeer` never
touches the response cache, as its source shows), and the delivered channel
values are collected in order into a list. -/

/-- Peer identifier (opaque `peer.ID`). -/
abbrev Peer := Nat

/-- Environment of one dispatcher run: the pubsub topic peer set (with its
possible error), each peer's request outcome, and the providers streamed by
each DHT round. -/
structure FanoutEnv where
  peersForTopic : Location → GoVal → Option (List Peer)
  response : Peer → Option GoVal
  providers : Nat → List Peer

/-- `maxDHTQueryRetries` (src/unnamed/part_000, line 132). -/
def maxDHTQueryRetries : Nat := 3

/-- Body of one per-peer goroutine of `RequestByNumber` (lines 120-126 and
143-151): on success the received value is sent on the result channel; the
cache is not touched. -/
def byNumberPeerStep (env : FanoutEnv) (acc : List GoVal × Cache) (peerID : Peer) :
    List GoVal × Cache :=
  match env.response peerID with
  | some recvd => (acc.1 ++ [recvd], acc.2)
  | none => acc

/-- Body of one per-peer goroutine of `RequestByHash` (lines 180-188 and
205-215): on success the received value is cached under the requested hash via
`cacheAdd` and sent on the result channel. -/
def byHashPeerStep (env : FanoutEnv) (hash : Hash) (acc : List GoVal × Cache)
    (peerID : Peer) : List GoVal × Cache :=
  match env.response peerID with
  | some recvd => (acc.1 ++ [recvd], cacheAdd acc.2 hash recvd)
  | none => acc

/-- `P2PNode.RequestByNumber` (src/unnamed/part_000, lines 109-160): query the
topic peers, then run `maxDHTQueryRetries` DHT provider rounds, sending each
successful per-peer result on the channel; no step writes to the cache.
Returns the delivered values and the final cache. -/
def RequestByNumber (env : FanoutEnv) (cache : Cache) (loc : Location)
    (_number : Nat) (datatype : GoVal) : List GoVal × Cache :=
  match env.peersForTopic loc datatype with
  | none => ([], cache)
  | some peers =>
    let acc1 := peers.foldl (byNumberPeerStep env) ([], cache)
    (List.range maxDHTQueryRetries).foldl
      (fun acc retry => (env.providers retry).foldl (byNumberPeerStep env) acc) acc1

/-- `P2PNode.RequestByHash` (src/unnamed/part_000, lines 162-224): first the
cache fast path — on a hit the stored value is sent through the type assertion
`res.(*types.Block)`, which panics unless the stored payload is a
`*types.Block`; on a miss, topic-peer fan-out and DHT rounds as in
`RequestByNumber`, but each success is cached via `cacheAdd` before being
delivered. -/
def RequestByHash (env : FanoutEnv) (cache : Cache) (loc : Location)
    (hash : Hash) (datatype : GoVal) : Outcome (List GoVal) × Cache :=
  match cacheGet cache hash datatype with
  | some res =>
    match res with
    | .blockPtr b => (.value [.blockPtr b], cache)
    | _ => (.panicked, cache)
  | none =>
    match env.peersForTopic loc datatype with
    | none => (.value [], cache)
    | some peers =>
      let acc1 := peers.foldl (byHashPeerStep env hash) ([], cache)
      let accF := (List.range maxDHTQueryRetries).foldl
        (fun acc retry => (env.providers retry).foldl (byHashPeerStep env hash) acc) acc1
      (.value accF.1, accF.2)

/-! ## Content identifier derivation (`locationToCid`, src/unnamed/part_001)

`locationToCid` calls `multihash.Encode(sliceBytes, multihash.SHA2_256)`.
In go-multihash, `Encode` only prepends the `(code, length)` varint header to
the given digest bytes — it does not hash them (hashing is `multihash.Sum`).
`cid.NewCidV1(codec, mh)` prepends the version and codec varints.  The spec
instead describes the multihash as the SHA2-256 digest of `Name()`; a full
SHA-256 model is provided below to compare the two. -/

/-- Unsigned LEB128 varint encoder, structurally recursive on a fuel bound so
that it evaluates inside the kernel. -/
def putUvarintAux : Nat → Nat → List Nat
  | 0, _ => []
  | fuel + 1, n =>
    if n < 128 then [n] else (n % 128 + 128) :: putUvarintAux fuel (n / 128)

/-- Unsigned LEB128 varint, as used by multihash and CID prefixes. -/
def putUvarint (n : Nat) : List Nat := putUvarintAux (n + 1) n

/-- Varint reader, inverse of `putUvarint`. -/
def readUvarint : List Nat → Option (Nat × List Nat)
  | [] => none
  | b :: rest =>
    if b < 128 then some (b, rest)
    else
      match readUvarint rest with
      | some (m, r) => some (m * 128 + (b - 128), r)
      | none => none

/-- The multihash function code `multihash.SHA2_256`. -/
def sha2_256Code : Nat := 0x12

/-- The CID codec `cid.Raw`. -/
def rawCodec : Nat := 0x55

/-- `multihash.Encode(buf, code)`: `varint(code) ++ varint(len(buf)) ++ buf`.
The buffer is wrapped as the digest verbatim; no hash function is applied. -/
def multihashEncode (buf : List Nat) (code : Nat) : List Nat :=
  putUvarint code ++ putUvarint buf.length ++ buf

/-- Binary form of `cid.NewCidV1(codec, mh)`: `varint(1) ++ varint(codec) ++ mh`. -/
def newCidV1 (codec : Nat) (mh : List Nat) : List Nat :=
  putUvarint 1 ++ putUvarint codec ++ mh

/-- `locationToCid` (src/unnamed/part_001, lines 95-104): wrap the bytes of
`location.Name()` with `multihash.Encode` under the SHA2-256 code and build a
raw-codec CIDv1 from the result. -/
def locationToCid (location : Location) : List Nat :=
  newCidV1 rawCodec (multihashEncode location.name sha2_256Code)

/-! ### SHA-256 (FIPS 180-4), the digest the spec's wording refers to -/

/-- Truncation to a 32-bit word. -/
def w32 (n : Nat) : Nat := n % 4294967296

/-- Right rotation of a 32-bit word by `k` bits. -/
def rotr32 (k x : Nat) : Nat :=
  w32 ((x >>> k) + ((x % 2 ^ k) <<< (32 - k)))

/-- SHA-256 `Ch(e, f, g)`. -/
def chooseFn (e f g : Nat) : Nat := (e &&& f) ^^^ ((e ^^^ 0xffffffff) &&& g)

/-- SHA-256 `Maj(a, b, c)`. -/
def majFn (a b c : Nat) : Nat := (a &&& b) ^^^ (a &&& c) ^^^ (b &&& c)

/-- SHA-256 big sigma 0. -/
def bigSigma0 (x : Nat) : Nat := rotr32 2 x ^^^ rotr32 13 x ^^^ rotr32 22 x

/-- SHA-256 big sigma 1. -/
def bigSigma1 (x : Nat) : Nat := rotr32 6 x ^^^ rotr32 11 x ^^^ rotr32 25 x

/-- SHA-256 small sigma 0. -/
def smallSigma0 (x : Nat) : Nat := rotr32 7 x ^^^ rotr32 18 x ^^^ (x >>> 3)

/-- SHA-256 small sigma 1. -/
def smallSigma1 (x : Nat) : Nat := rotr32 17 x ^^^ rotr32 19 x ^^^ (x >>> 10)

/-- The 64 SHA-256 round constants, written in decimal. -/
def sha256K : List Nat :=
  [1116352408, 1899447441, 3049323471, 3921009573, 961987163,
   1508970993, 2453635748, 2870763221, 3624381080, 310598401,
   607225278, 1426881987, 1925078388, 2162078206, 2614888103,
   3248222580, 3835390401, 4022224774, 264347078, 604807628,
   770255983, 1249150122, 1555081692, 1996064986, 2554220882,
   2821834349, 2952996808, 3210313671, 3336571891, 3584528711,
   113926993, 338241895, 666307205, 773529912, 1294757372,
   1396182291, 1695183700, 1986661051, 2177026350, 2456956037,
   2730485921, 2820302411, 3259730800, 3345764771, 3516065817,
   3600352804, 4094571909, 275423344, 430227734, 506948616,
   659060556, 883997877, 958139571, 1322822218, 1537002063,
   1747873779, 1955562222, 2024104815, 2227730452, 2361852424,
   2428436474, 2756734187, 3204031479, 3329325298]

/-- The SHA-256 initial hash state, written in decimal. -/
def sha256H0 : List Nat :=
  [1779033703, 3144134277, 1013904242, 2773480762,
   1359893119, 2600822924, 528734635, 1541459225]

/-- Big-endian byte rendering of `n` in `k` bytes. -/
def toBytesBE : Nat → Nat → List Nat
  | 0, _ => []
  | k + 1, n => toBytesBE k (n / 256) ++ [n % 256]

/-- Group bytes into big-endian 32-bit words. -/
def bytesToWords : List Nat → List Nat
  | a :: b :: c :: d :: rest =>
    (((a * 256 + b) * 256 + c) * 256 + d) :: bytesToWords rest
  | _ => []

/-- One message-schedule extension step: append word `w[n]` computed from
`w[n-2]`, `w[n-7]`, `w[n-15]`, `w[n-16]`. -/
def scheduleStep (w : List Nat) : List Nat :=
  let n := w.length
  w ++ [w32 (smallSigma1 (w.getD (n - 2) 0) + w.getD (n - 7) 0 +
             smallSigma0 (w.getD (n - 15) 0) + w.getD (n - 16) 0)]

/-- One SHA-256 compression round on the 8-word working state. -/
def sha256Round (st : List Nat) (kw : Nat) : List Nat :=
  match st with
  | [a, b, c, d, e, f, g, hh] =>
    let t1 := w32 (hh + bigSigma1 e + chooseFn e f g + kw)
    let t2 := w32 (bigSigma0 a + majFn a b c)
    [w32 (t1 + t2), a, b, c, w32 (d + t1), e, f, g]
  | other => other

/-- Compress one 16-word block into the running hash state. -/
def sha256Compress (hs block : List Nat) : List Nat :=
  let w := (List.range 48).foldl (fun acc _ => scheduleStep acc) block
  let final := (sha256K.zip w).foldl (fun st kw => sha256Round st (w32 (kw.1 + kw.2))) hs
  (hs.zip final).map (fun p => w32 (p.1 + p.2))

/-- Iterate the compression function over all 16-word blocks, structurally
recursive on a fuel bound so that it evaluates inside the kernel. -/
def sha256BlocksAux : Nat → List Nat → List Nat → List Nat
  | 0, hs, _ => hs
  | fuel + 1, hs, ws =>
    if ws.length < 16 then hs
    else sha256BlocksAux fuel (sha256Compress hs (ws.take 16)) (ws.drop 16)

/-- Iterate the compression function over all 16-word blocks. -/
def sha256Blocks (hs ws : List Nat) : List Nat := sha256BlocksAux ws.length hs ws

/-- SHA-256 of a byte sequence, as a 32-byte sequence. -/
def sha256 (msg : List Nat) : List Nat :=
  let padded := msg ++ 0x80 :: List.replicate ((119 - msg.length % 64) % 64) 0
    ++ toBytesBE 8 (8 * msg.length)
  ((sha256Blocks sha256H0 (bytesToWords padded)).map (toBytesBE 4)).flatten

/-- The CID the spec's words describe for a location: a raw-codec CIDv1 whose
multihash carries the SHA2-256 digest of `Name()`. -/
def locationToCidSpec (location : Location) : List Nat :=
  newCidV1 rawCodec (multihashEncode (sha256 location.name) sha2_256Code)

/-- Extract the digest field back out of a CID built by `locationToCid`:
skip the version, codec, hash-code and length varints. -/
def cidName (cid : List Nat) : Option (List Nat) :=
  match readUvarint cid with
  | none => none
  | some (_, r1) =>
    match readUvarint r1 with
    | none => none
    | some (_, r2) =>
      match readUvarint r2 with
      | none => none
      | some (_, r3) =>
        match readUvarint r3 with
        | none => none
        | some (_, r4) => some r4

/-- Whether a dynamic value is a bare `types.Block` value (the only broadcast
kind `handleBroadcast` accepts). -/
def isBlockVal : GoVal → Bool
  | .blockVal _ => true
  | _ => false

/-! ## Theorems -/

theorem readUvarint_putUvarintAux (fuel : Nat) :
    ∀ n, n < fuel → ∀ rest, readUvarint (putUvarintAux fuel n ++ rest) = some (n, rest) := by
  induction fuel with
  | zero => intro n hn rest; omega
  | succ f ih =>
    intro n hn rest
    simp only [putUvarintAux]
    split
    · next hlt => simp [readUvarint, hlt]
    · next hge =>
      have hrec := ih (n / 128) (by omega) rest
      simp only [List.cons_append, readUvarint, List.append_eq]
      rw [if_neg (by omega), hrec]
      simp only [Option.some.injEq, Prod.mk.injEq]
      exact ⟨by omega, trivial⟩

theorem readUvarint_putUvarint (n : Nat) (rest : List Nat) :
    readUvarint (putUvarint n ++ rest) = some (n, rest) := by
  unfold putUvarint
  exact readUvarint_putUvarintAux (n + 1) n (by omega) rest

theorem cidName_locationToCid (loc : Location) :
    cidName (locationToCid loc) = some loc.name := by
  unfold locationToCid newCidV1 multihashEncode cidName
  simp only [List.append_assoc, readUvarint_putUvarint]

/-- Claim C6 (counterexample): for the location whose `Name()` is the single
byte 0x61, the CID built by the source differs from the CIDv1 whose multihash
is the SHA2-256 digest of `Name()` — `multihash.Encode` wraps the name bytes
verbatim instead of hashing them. -/
theorem c6_counterexample : locationToCid ⟨[0x61]⟩ ≠ locationToCidSpec ⟨[0x61]⟩ := by
  decide

/-- Claim C6 (amended): `locationToCid(location)` is the CIDv1 with raw codec
whose multihash wraps the bytes of `location.Name()` verbatim under the
SHA2-256 function code, without hashing them; the derivation is deterministic
and collision-free: two locations get byte-identical CIDs exactly when their
`Name()` bytes agree. -/
theorem c6_locationToCid_deterministic (l1 l2 : Location) :
    locationToCid l1 = locationToCid l2 ↔ l1.name = l2.name := by
  constructor
  · intro h
    have h1 := cidName_locationToCid l1
    rw [h, cidName_locationToCid l2] at h1
    exact (Option.some.inj h1).symm
  · intro h
    unfold locationToCid newCidV1 multihashEncode
    rw [h]

/-- Claim C6 witness: the amended equivalence applied at two concrete
locations with the same name. -/
theorem c6_witness :
    locationToCid ⟨[3, 7]⟩ = locationToCid ⟨[3, 7]⟩ ↔
      Location.name ⟨[3, 7]⟩ = Location.name ⟨[3, 7]⟩ :=
  c6_locationToCid_deterministic ⟨[3, 7]⟩ ⟨[3, 7]⟩

/-- Claim C1: an inbound frame whose decoded type tag is the BlockHash tag
(a `common.Hash` value, the dispatch case that calls the block-number handler)
and whose selector is the block number as decoded by the read loop (a
`*big.Int`, per the loop's own logging switch) never reaches
`handleBlockNumberRequest`: the dispatch evaluates `query.(big.Int)` on a
`*big.Int`, a failing single-return type assertion, and panics before any
response frame is written. -/
theorem c1_blockNumberDispatch_panics (env : ServerEnv) (node : NodeIface)
    (id : Nat) (loc : Location) (tagHash : Hash) (n : Nat) :
    dispatchRequest env node id loc (.hashVal tagHash) (.bigIntPtr n) =
      HandlerResult.panicked := rfl

/-- Claim C5: an inbound Block request whose hash the facade does not know
(`GetBlock` returns nil) makes `handleBlockRequest` panic — the nil check only
logs and the code falls through to `block.Hash()` on the nil block — so no
not-found response is ever written. -/
theorem c5_absent_block_panics (env : ServerEnv) (node : NodeIface) (id : Nat)
    (loc : Location) (h : Hash) (habs : node.getBlock h loc = none) :
    handleBlockRequest env node id loc h = HandlerResult.panicked := by
  unfold handleBlockRequest
  rw [habs]

/-- A node facade whose lookups all miss, used as a concrete witness input. -/
def emptyNode : NodeIface :=
  { getBlock := fun _ _ => none
    getHeader := fun _ _ => none
    getBlockHashByNumber := fun _ _ => none }

/-- Claim C5 witness: the theorem applied at a concrete request against a
facade that does not know the hash. -/
theorem c5_witness :
    emptyNode.getBlock ⟨0xbb⟩ ⟨[0]⟩ = none ∧
    handleBlockRequest ⟨true, true⟩ emptyNode 9 ⟨[0]⟩ ⟨0xbb⟩ = HandlerResult.panicked :=
  ⟨rfl, c5_absent_block_panics ⟨true, true⟩ emptyNode 9 ⟨[0]⟩ ⟨0xbb⟩ rfl⟩

/-- Claim C7: `P2PNode.GetHeader` panics on every input — the body is a bare
panic stub, so it neither consults the cache nor the consensus backend.
Evaluated at a concrete state, hash and location. -/
theorem c7_getHeader_panics :
    GetHeader ⟨[], none⟩ ⟨0xaa⟩ ⟨[1]⟩ = Outcome.panicked := rfl

/-- Claim C2: once a by-hash attempt reaches the validation switch (stream,
encode, write, read, decode all succeeded and the response carried the sent
request ID), the requester returns a payload only when the received dynamic
kind matches the requested tag and the payload's `Hash()` equals the requested
hash — and then the peer is not banned; on any validation failure it bans the
peer and returns an error.  For a by-number request (`*common.Hash` tag) any
received hash is accepted. -/
theorem c2_requester_validation (env : ClientEnv) (reg : Registry) (h : Hash)
    (datatype : GoVal)
    (hok : env.streamOk = true ∧ env.encodeOk = true ∧ env.writeOk = true ∧
           env.readOk = true ∧ env.decodeOk = true ∧ env.recvID = reg.counter) :
    (isByHashTag datatype = true →
      ((requestFromPeer env reg (.hashVal h) datatype).outcome = .ok env.recvPayload ∧
        sameKind env.recvPayload datatype = true ∧
        payloadHash env.recvPayload = some h ∧
        (requestFromPeer env reg (.hashVal h) datatype).banned = false) ∨
      ((requestFromPeer env reg (.hashVal h) datatype).outcome = .err ∧
        (requestFromPeer env reg (.hashVal h) datatype).banned = true)) ∧
    (∀ g g2, datatype = GoVal.hashPtr g → env.recvPayload = GoVal.hashPtr g2 →
      (requestFromPeer env reg (.hashVal h) datatype).outcome = .ok (.hashPtr g2) ∧
      (requestFromPeer env reg (.hashVal h) datatype).banned = false) := by
  obtain ⟨so, eo, wo, ro, dk, rid, rp⟩ := env
  obtain ⟨h1, h2, h3, h4, h5, h6⟩ := hok
  simp only at h1 h2 h3 h4 h5 h6
  subst h1 h2 h3 h4 h5 h6
  simp only [requestFromPeer, if_true, if_pos rfl]
  constructor
  · intro hby
    cases datatype <;> simp [isByHashTag] at hby <;>
      cases rp <;>
      simp [validateResponse, assertHashVal, sameKind, payloadHash] <;>
      split_ifs with heq <;> simp_all
  · intro g g2 hdt hrp
    subst hdt
    subst hrp
    simp [validateResponse]

/-- A fully successful attempt environment whose peer returns the requested
block, used as a concrete witness input. -/
def c2Env : ClientEnv :=
  { streamOk := true, encodeOk := true, writeOk := true, readOk := true,
    decodeOk := true, recvID := 5, recvPayload := .blockPtr ⟨⟨0xbb⟩⟩ }

/-- Claim C2 witness: the validation theorem applied to a concrete successful
block fetch. -/
theorem c2_witness :
    (c2Env.streamOk = true ∧ c2Env.encodeOk = true ∧ c2Env.writeOk = true ∧
      c2Env.readOk = true ∧ c2Env.decodeOk = true ∧
      c2Env.recvID = Registry.counter ⟨5, []⟩) ∧
    ((isByHashTag (GoVal.blockPtr ⟨⟨0⟩⟩) = true →
      ((requestFromPeer c2Env ⟨5, []⟩ (.hashVal ⟨0xbb⟩) (.blockPtr ⟨⟨0⟩⟩)).outcome =
          .ok c2Env.recvPayload ∧
        sameKind c2Env.recvPayload (GoVal.blockPtr ⟨⟨0⟩⟩) = true ∧
        payloadHash c2Env.recvPayload = some ⟨0xbb⟩ ∧
        (requestFromPeer c2Env ⟨5, []⟩ (.hashVal ⟨0xbb⟩) (.blockPtr ⟨⟨0⟩⟩)).banned = false) ∨
      ((requestFromPeer c2Env ⟨5, []⟩ (.hashVal ⟨0xbb⟩) (.blockPtr ⟨⟨0⟩⟩)).outcome = .err ∧
        (requestFromPeer c2Env ⟨5, []⟩ (.hashVal ⟨0xbb⟩) (.blockPtr ⟨⟨0⟩⟩)).banned = true)) ∧
    (∀ g g2, GoVal.blockPtr ⟨⟨0⟩⟩ = GoVal.hashPtr g → c2Env.recvPayload = GoVal.hashPtr g2 →
      (requestFromPeer c2Env ⟨5, []⟩ (.hashVal ⟨0xbb⟩) (.blockPtr ⟨⟨0⟩⟩)).outcome =
        .ok (.hashPtr g2) ∧
      (requestFromPeer c2Env ⟨5, []⟩ (.hashVal ⟨0xbb⟩) (.blockPtr ⟨⟨0⟩⟩)).banned = false)) :=
  ⟨⟨rfl, rfl, rfl, rfl, rfl, rfl⟩,
   c2_requester_validation c2Env ⟨5, []⟩ ⟨0xbb⟩ (.blockPtr ⟨⟨0⟩⟩)
     ⟨rfl, rfl, rfl, rfl, rfl, rfl⟩⟩

/-- An attempt environment whose response read fails (for example a timeout),
used as the concrete C3 counterexample input. -/
def c3Env : ClientEnv :=
  { streamOk := true, encodeOk := true, writeOk := true, readOk := false,
    decodeOk := true, recvID := 7, recvPayload := .hashPtr ⟨0⟩ }

/-- Claim C3 (counterexample): in the concrete attempt where the response read
fails after the request was written, the generated ID 7 is added to the
pending set, never removed, and is still pending when the attempt returns —
refuting the claim that an ID is never left pending after the attempt ends. -/
theorem c3_counterexample :
    REvent.generate 7 ∈ (requestFromPeer c3Env ⟨7, []⟩ (.hashVal ⟨1⟩) (.blockPtr ⟨⟨1⟩⟩)).events ∧
    REvent.add 7 ∈ (requestFromPeer c3Env ⟨7, []⟩ (.hashVal ⟨1⟩) (.blockPtr ⟨⟨1⟩⟩)).events ∧
    REvent.remove 7 ∉ (requestFromPeer c3Env ⟨7, []⟩ (.hashVal ⟨1⟩) (.blockPtr ⟨⟨1⟩⟩)).events ∧
    7 ∈ (requestFromPeer c3Env ⟨7, []⟩ (.hashVal ⟨1⟩) (.blockPtr ⟨⟨1⟩⟩)).reg.pending := by
  decide

/-- Claim C3 (amended): in any attempt that opens its stream, the generated ID
is added to the pending set exactly when the request frame is successfully
encoded and written (on an earlier failure it is generated but never added),
and it is removed exactly when a response is then read, decoded, and carries
the matching request ID; on a read or decode failure, or on an ID mismatch,
the ID stays pending when the attempt ends. -/
theorem c3_amended_registry_discipline (env : ClientEnv) (reg : Registry)
    (data datatype : GoVal) (hstream : env.streamOk = true) :
    (requestFromPeer env reg data datatype).events =
      REvent.generate reg.counter ::
        (if env.encodeOk ∧ env.writeOk then
          REvent.add reg.counter ::
            (if env.readOk ∧ env.decodeOk ∧ env.recvID = reg.counter
             then [REvent.remove reg.counter] else [])
         else []) ∧
    (requestFromPeer env reg data datatype).reg.pending =
      (if env.encodeOk ∧ env.writeOk ∧ ¬(env.readOk ∧ env.decodeOk ∧ env.recvID = reg.counter)
       then reg.counter :: reg.pending else reg.pending) := by
  obtain ⟨so, eo, wo, ro, dk, rid, rp⟩ := env
  simp only at hstream
  subst hstream
  by_cases hrid : rid = reg.counter <;>
    cases eo <;> cases wo <;> cases ro <;> cases dk <;>
    simp [requestFromPeer, hrid, List.erase_cons_head]

/-- Claim C3 witness: the amended characterization applied to the concrete
failed-read attempt of the counterexample. -/
theorem c3_witness :
    c3Env.streamOk = true ∧
    ((requestFromPeer c3Env ⟨7, []⟩ (.hashVal ⟨1⟩) (.blockPtr ⟨⟨1⟩⟩)).events =
      REvent.generate 7 ::
        (if c3Env.encodeOk ∧ c3Env.writeOk then
          REvent.add 7 ::
            (if c3Env.readOk ∧ c3Env.decodeOk ∧ c3Env.recvID = 7
             then [REvent.remove 7] else [])
         else []) ∧
    (requestFromPeer c3Env ⟨7, []⟩ (.hashVal ⟨1⟩) (.blockPtr ⟨⟨1⟩⟩)).reg.pending =
      (if c3Env.encodeOk ∧ c3Env.writeOk ∧ ¬(c3Env.readOk ∧ c3Env.decodeOk ∧ c3Env.recvID = 7)
       then 7 :: ([] : List Nat) else ([] : List Nat))) :=
  ⟨rfl, c3_amended_registry_discipline c3Env ⟨7, []⟩ (.hashVal ⟨1⟩) (.blockPtr ⟨⟨1⟩⟩) rfl⟩

/-- Claim C4: when the decoded response carries a request ID different from
the sent one, `requestFromPeer` panics at the source's `panic` stub instead of
failing gracefully: the process aborts, the peer is not banned, and the sent
ID is left in the pending registry. -/
theorem c4_mismatched_id_panics (env : ClientEnv) (reg : Registry)
    (data datatype : GoVal)
    (hok : env.streamOk = true ∧ env.encodeOk = true ∧ env.writeOk = true ∧
           env.readOk = true ∧ env.decodeOk = true)
    (hne : env.recvID ≠ reg.counter) :
    (requestFromPeer env reg data datatype).outcome = .panicked ∧
    (requestFromPeer env reg data datatype).banned = false ∧
    reg.counter ∈ (requestFromPeer env reg data datatype).reg.pending := by
  obtain ⟨so, eo, wo, ro, dk, rid, rp⟩ := env
  obtain ⟨h1, h2, h3, h4, h5⟩ := hok
  simp only at h1 h2 h3 h4 h5 hne
  subst h1 h2 h3 h4 h5
  simp [requestFromPeer, hne]

/-- An attempt environment returning a wrong request ID, used as the concrete
C4 failing input. -/
def c4Env : ClientEnv :=
  { streamOk := true, encodeOk := true, writeOk := true, readOk := true,
    decodeOk := true, recvID := 8, recvPayload := .blockPtr ⟨⟨0xbb⟩⟩ }

/-- Claim C4 witness: the theorem applied to the concrete attempt that sends
ID 7 and receives ID 8. -/
theorem c4_witness :
    ((c4Env.streamOk = true ∧ c4Env.encodeOk = true ∧ c4Env.writeOk = true ∧
      c4Env.readOk = true ∧ c4Env.decodeOk = true) ∧ c4Env.recvID ≠ 7) ∧
    ((requestFromPeer c4Env ⟨7, []⟩ (.hashVal ⟨1⟩) (.blockPtr ⟨⟨1⟩⟩)).outcome = .panicked ∧
     (requestFromPeer c4Env ⟨7, []⟩ (.hashVal ⟨1⟩) (.blockPtr ⟨⟨1⟩⟩)).banned = false ∧
     7 ∈ (requestFromPeer c4Env ⟨7, []⟩ (.hashVal ⟨1⟩) (.blockPtr ⟨⟨1⟩⟩)).reg.pending) :=
  ⟨⟨⟨rfl, rfl, rfl, rfl, rfl⟩, by decide⟩,
   c4_mismatched_id_panics c4Env ⟨7, []⟩ (.hashVal ⟨1⟩) (.blockPtr ⟨⟨1⟩⟩)
     ⟨rfl, rfl, rfl, rfl, rfl⟩ (by decide)⟩

theorem byNumber_foldl_cache (env : FanoutEnv) (peers : List Peer)
    (acc : List GoVal × Cache) :
    (peers.foldl (byNumberPeerStep env) acc).2 = acc.2 := by
  induction peers generalizing acc with
  | nil => rfl
  | cons p rest ih =>
    rw [List.foldl_cons, ih]
    unfold byNumberPeerStep
    cases env.response p <;> rfl

theorem byNumber_rounds_cache (env : FanoutEnv) (rounds : List Nat)
    (acc : List GoVal × Cache) :
    (rounds.foldl
      (fun acc2 retry => (env.providers retry).foldl (byNumberPeerStep env) acc2) acc).2 =
      acc.2 := by
  induction rounds generalizing acc with
  | nil => rfl
  | cons r rest ih => rw [List.foldl_cons, ih, byNumber_foldl_cache]

/-- Claim C8: `RequestByNumber` never writes to the response cache — the final
cache equals the initial cache — so any lookup that missed before the
by-number dispatch (in particular a follow-up `RequestByHash` probe for the
delivered hash) still misses afterwards and cannot short-circuit on the
cache. -/
theorem c8_requestByNumber_cache_untouched (env : FanoutEnv) (cache : Cache)
    (loc : Location) (number : Nat) (datatype : GoVal) (h2 : Hash) (dt2 : GoVal)
    (hmiss : cacheGet cache h2 dt2 = none) :
    (RequestByNumber env cache loc number datatype).2 = cache ∧
    cacheGet (RequestByNumber env cache loc number datatype).2 h2 dt2 = none := by
  have hmain : (RequestByNumber env cache loc number datatype).2 = cache := by
    unfold RequestByNumber
    cases env.peersForTopic loc datatype with
    | none => rfl
    | some peers =>
      simp only
      rw [byNumber_rounds_cache, byNumber_foldl_cache]
  exact ⟨hmain, by rw [hmain]; exact hmiss⟩

/-- A dispatcher environment with one topic peer that answers, used as a
concrete witness input. -/
def c8Env : FanoutEnv :=
  { peersForTopic := fun _ _ => some [1]
    response := fun _ => some (.hashPtr ⟨0xdd⟩)
    providers := fun _ => [] }

/-- Claim C8 witness: the theorem applied to a concrete by-number dispatch
that delivers hash 0xdd into an empty cache. -/
theorem c8_witness :
    cacheGet [] ⟨0xdd⟩ (GoVal.blockPtr ⟨⟨0⟩⟩) = none ∧
    ((RequestByNumber c8Env [] ⟨[0]⟩ 42 (.blockPtr ⟨⟨0⟩⟩)).2 = [] ∧
      cacheGet (RequestByNumber c8Env [] ⟨[0]⟩ 42 (.blockPtr ⟨⟨0⟩⟩)).2 ⟨0xdd⟩
        (GoVal.blockPtr ⟨⟨0⟩⟩) = none) :=
  ⟨rfl, c8_requestByNumber_cache_untouched c8Env [] ⟨[0]⟩ 42 (.blockPtr ⟨⟨0⟩⟩)
    ⟨0xdd⟩ (.blockPtr ⟨⟨0⟩⟩) rfl⟩

/-- Claim C9: `handleBroadcast` forwards to `OnNewBroadcast` only when a
consensus backend has been set; with no backend set, a Block broadcast is
still inserted into the cache under its hash and the call returns without
touching the nil backend; any non-Block payload is dropped before any
forwarding, leaving the state unchanged. -/
theorem c9_broadcast_backend_guard (p : P2PNodeState) (data : GoVal) :
    ((handleBroadcast p data).2 = true → p.consensus.isSome = true) ∧
    (∀ b, p.consensus = none → data = GoVal.blockVal b →
      cacheFind (handleBroadcast p data).1.cache b.hash = some (.blockPtr b) ∧
      (handleBroadcast p data).2 = false) ∧
    (isBlockVal data = false → (handleBroadcast p data).2 = false ∧
      (handleBroadcast p data).1 = p) := by
  refine ⟨?_, ?_, ?_⟩
  · intro hf
    cases data <;> simp_all [handleBroadcast]
  · intro b hnone hdata
    subst hdata
    simp [handleBroadcast, cacheAdd, cacheFind, hnone]
  · intro hnb
    cases data <;> simp [isBlockVal] at hnb <;> simp [handleBroadcast]

/-- Claim C9 witness: the theorem applied to a node with no consensus backend
receiving a concrete Block broadcast: the block is cached and nothing is
forwarded. -/
theorem c9_witness :
    cacheFind (handleBroadcast ⟨[], none⟩ (GoVal.blockVal ⟨⟨3⟩⟩)).1.cache ⟨3⟩ =
      some (.blockPtr ⟨⟨3⟩⟩) ∧
    (handleBroadcast ⟨[], none⟩ (GoVal.blockVal ⟨⟨3⟩⟩)).2 = false :=
  (c9_broadcast_backend_guard ⟨[], none⟩ (GoVal.blockVal ⟨⟨3⟩⟩)).2.1 ⟨⟨3⟩⟩ rfl rfl

/-- Claim C10: on a cache hit, `RequestByHash` delivers the stored value
through the type assertion of its fast path: when the stored payload is a
`*types.Block` the assertion succeeds and that block is the only delivered
value; for any other stored payload kind (for example a cached header hit
under the Header tag) the assertion fails and the fast path panics. -/
theorem c10_fastpath_block_assertion (env : FanoutEnv) (cache : Cache)
    (loc : Location) (hash : Hash) (datatype res : GoVal)
    (hget : cacheGet cache hash datatype = some res) :
    RequestByHash env cache loc hash datatype =
      (if isBlockPtr res then (Outcome.value [res], cache)
       else (Outcome.panicked, cache)) := by
  unfold RequestByHash
  rw [hget]
  cases res <;> simp [isBlockPtr]

/-- A cache holding a header under hash 4, used as a concrete witness input
for the failing direction of the fast-path assertion. -/
def c10Cache : Cache := [(⟨4⟩, .headerPtr ⟨⟨4⟩⟩)]

/-- A dispatcher environment with no peers, used as the C10 witness input. -/
def c10Env : FanoutEnv :=
  { peersForTopic := fun _ _ => some []
    response := fun _ => none
    providers := fun _ => [] }

/-- Claim C10 witness: the theorem applied to a Header-tagged request that
hits the cached header: the fast path panics on the block assertion. -/
theorem c10_witness :
    cacheGet c10Cache ⟨4⟩ (GoVal.headerPtr ⟨⟨0⟩⟩) = some (.headerPtr ⟨⟨4⟩⟩) ∧
    RequestByHash c10Env c10Cache ⟨[0]⟩ ⟨4⟩ (GoVal.headerPtr ⟨⟨0⟩⟩) =
      (if isBlockPtr (GoVal.headerPtr ⟨⟨4⟩⟩) then
        (Outcome.value [GoVal.headerPtr ⟨⟨4⟩⟩], c10Cache)
       else (Outcome.panicked, c10Cache)) :=
  ⟨rfl, c10_fastpath_block_assertion c10Env c10Cache ⟨[0]⟩ ⟨4⟩ (GoVal.headerPtr ⟨⟨0⟩⟩)
    (.headerPtr ⟨⟨4⟩⟩) rfl⟩
